import Mathlib

/-!
Verification of the sentiment-analysis pipeline in src/app.py.

The pipeline is embedded shallowly: the network, the uploaded file and the
process environment are explicit parameters; Python floats are modelled as
exact rationals, with round(x, 2) modelled as rounding to the nearest
multiple of 1/100; Python exceptions (ZeroDivisionError) are modelled with
Except.
-/

namespace App

/-! ## File acceptance and format dispatch (app.py lines 19-30) -/

/-- ALLOWED_EXTENSIONS = set of csv and xlsx (line 19), as lists of chars. -/
def ALLOWED_EXTENSIONS : List (List Char) := ["csv".toList, "xlsx".toList]

/-- The characters after the last dot of the list, when a dot occurs:
this is what the Python idiom rsplit with separator dot, maxsplit 1, index 1
yields, guarded by the membership test of a dot in the name. -/
def afterLastDot : List Char → Option (List Char)
  | [] => none
  | c :: rest =>
    match afterLastDot rest with
    | some t => some t
    | none => if c = '.' then some rest else none

/-- allowed_file (lines 22-23): the name holds a dot and the lower-cased
part after the last dot is one of the allowed extensions. -/
def allowed_file (filename : String) : Bool :=
  match afterLastDot filename.toList with
  | some ext => decide (ext.map Char.toLower ∈ ALLOWED_EXTENSIONS)
  | none => false

/-- The two tabular formats the upload handler parses. -/
inductive FileFormat
  | csv
  | xlsx
deriving DecidableEq

/-- Whether the first character list is a contiguous initial segment of the
second. -/
def charsPfx : List Char → List Char → Bool
  | [], _ => true
  | _ :: _, [] => false
  | a :: as, b :: bs => a == b && charsPfx as bs

/-- Whether the first character list occurs contiguously anywhere in the
second: the Python membership test of a substring in a string. -/
def charsSub (sub : List Char) : List Char → Bool
  | [] => sub.isEmpty
  | c :: rest => charsPfx sub (c :: rest) || charsSub sub rest

/-- Python endswith: suffix test on the character lists, case-sensitive. -/
def pyEndsWith (s p : String) : Bool := charsPfx p.toList.reverse s.toList.reverse

/-- The format dispatch of process_file (lines 27-30): the csv suffix is
tested with endswith, case-SENSITIVELY; any other file goes to read_excel. -/
def parseFormat (filename : String) : FileFormat :=
  if pyEndsWith filename ".csv" then .csv else .xlsx

/-! ## The data frame and process_file (app.py lines 26-36) -/

/-- One named column of the parsed file; a cell holding none models a
missing value (NaN), which dropna removes. -/
structure Column where
  name : String
  cells : List (Option String)

/-- The parsed tabular file, as pandas returns it. -/
structure DataFrame where
  cols : List Column

/-- df.columns: the list of column names. -/
def DataFrame.columns (df : DataFrame) : List String := df.cols.map (·.name)

/-- Look a column up by name, as indexing the frame does. -/
def DataFrame.getCol (df : DataFrame) (n : String) : Option (List (Option String)) :=
  (df.cols.find? (fun c => c.name == n)).map (·.cells)

/-- process_file, lines 32-36: reject a frame without a Review column with
the fixed message, otherwise return the dropna values of that column in
row order. -/
def process_file (df : DataFrame) : Except String (List String) :=
  match df.getCol "Review" with
  | none => .error "Missing 'Review' column in file."
  | some cells => .ok (cells.filterMap id)

/-! ## classify_sentiment (app.py lines 39-47) -/

/-- Python str.lower, character-wise. -/
def pyLower (s : String) : String := String.mk (s.toList.map Char.toLower)

/-- The Python membership test of a substring in a string. -/
def pyIn (sub s : String) : Bool := charsSub sub.toList s.toList

/-- classify_sentiment (lines 39-47): lower-case the content, then test the
substrings positive and negative in that order; everything else is neutral. -/
def classify_sentiment (sentiment_content : String) : String :=
  let sentiment_content_lower := pyLower sentiment_content
  if pyIn "positive" sentiment_content_lower then "positive"
  else if pyIn "negative" sentiment_content_lower then "negative"
  else "neutral"

/-! ## analyze_sentiment (app.py lines 49-97)

The network is a function from the attempt index to what that attempt
observes. A successful (2xx) response carries the decoded body; a non-2xx
response raises HTTPError with its status; a transport failure raises
RequestException. -/

/-- One element of the choices array: the value of
choices[0].get(message, default empty).get(content, default None). -/
structure Choice where
  content : Option String

/-- The decoded 2xx response body: response_data.get(choices), which may be
absent (none) or an empty list. -/
structure ResponseBody where
  choices : Option (List Choice)

/-- What one POST to the API can come back as. -/
inductive AttemptOutcome
  | success (body : ResponseBody)
  | httpError (status : Nat) (details : String)
  | transportError (details : String)

/-- The analysis result dictionary: either a sentiment key or an error key. -/
inductive SentimentResult
  | sentiment (s : String)
  | error (e : String)
deriving DecidableEq

/-- retry_attempts = 3 (line 66). -/
def retry_attempts : Nat := 3

/-- The retry loop of analyze_sentiment (lines 67-97), by the number of
remaining iterations; the second component records the back-off sleeps
performed, in order. On a 429 the loop sleeps 2 ^ attempt seconds and
retries (even after the final attempt, as the code does); any other HTTP
error or a transport error returns at once; a 2xx body is examined for
choices and content (an empty content string is falsy in Python and is
reported as missing). -/
def analyze_go (net : Nat → AttemptOutcome) : Nat → Nat → SentimentResult × List Nat
  | _, 0 => (.error "Failed after multiple retries due to rate limiting.", [])
  | attempt, remaining + 1 =>
    match net attempt with
    | .success body =>
      match body.choices with
      | some (choice :: _) =>
        match choice.content with
        | some c =>
          if c = "" then (.error "Sentiment content not found in the response.", [])
          else (.sentiment c, [])
        | none => (.error "Sentiment content not found in the response.", [])
      | _ => (.error "No choices found in the API response.", [])
    | .httpError status details =>
      if status = 429 then
        let r := analyze_go net (attempt + 1) remaining
        (r.1, 2 ^ attempt :: r.2)
      else (.error ("HTTP error: " ++ details), [])
    | .transportError details => (.error ("Request failed: " ++ details), [])

/-- analyze_sentiment: run the loop from attempt 0 with retry_attempts
iterations available. -/
def analyze_sentiment (net : Nat → AttemptOutcome) : SentimentResult × List Nat :=
  analyze_go net 0 retry_attempts

/-! ## The upload_file processing loop (app.py lines 122-159) -/

/-- Lines 131-135: a result with a sentiment key is classified; anything
else falls back to the unknown label. -/
def labelOf : SentimentResult → String
  | .sentiment s => classify_sentiment s
  | .error _ => "unknown"

/-- One row of the output: the review and its classified sentiment. -/
structure ReviewResult where
  review : String
  sentiment : String
deriving DecidableEq

/-- The accumulator of the loop: the three counters and the results list. -/
structure LoopState where
  positive_count : Nat
  negative_count : Nat
  neutral_count : Nat
  results : List ReviewResult
deriving DecidableEq

/-- One iteration of the loop (lines 127-148): classify, bump the matching
counter (everything that is neither positive nor negative goes to the
neutral counter), append the row. -/
def loopStep (oracle : String → SentimentResult) (st : LoopState) (review : String) :
    LoopState :=
  let sentiment := labelOf (oracle review)
  let st' :=
    if sentiment = "positive" then { st with positive_count := st.positive_count + 1 }
    else if sentiment = "negative" then { st with negative_count := st.negative_count + 1 }
    else { st with neutral_count := st.neutral_count + 1 }
  { st' with results := st'.results ++ [⟨review, sentiment⟩] }

/-- The whole loop over the ingested reviews, from zeroed counters. -/
def processReviews (oracle : String → SentimentResult) (reviews : List String) : LoopState :=
  reviews.foldl (loopStep oracle) ⟨0, 0, 0, []⟩

/-! ## Aggregation (app.py lines 150-159) -/

/-- The summary dictionary: exactly the three keys, no unknown bucket. -/
structure SentimentSummary where
  positive : ℚ
  negative : ℚ
  neutral : ℚ
deriving DecidableEq

/-- Python round(x, 2) over exact rationals: the nearest multiple of 1/100.
The binary-float representation and the tie-breaking rule of Python
(round-half-to-even) are abstracted to exact round-to-nearest; the claims
below use only that the result is within 1/200 of the argument, or evaluate
away from ties. -/
def round2 (x : ℚ) : ℚ := ((round (x * 100) : ℤ) : ℚ) / 100

/-- Python division, which raises ZeroDivisionError on a zero denominator. -/
def pyDiv (a b : ℚ) : Except String ℚ :=
  if b = 0 then .error "ZeroDivisionError: division by zero" else .ok (a / b)

/-- Lines 150-159: the three scores. There is NO guard on total_reviews;
each score divides a counter by it and rounds to 2 decimals. -/
def sentimentSummary (positive_count negative_count neutral_count total_reviews : Nat) :
    Except String SentimentSummary :=
  match pyDiv positive_count total_reviews with
  | .error e => .error e
  | .ok p =>
    match pyDiv negative_count total_reviews with
    | .error e => .error e
    | .ok n =>
      match pyDiv neutral_count total_reviews with
      | .error e => .error e
      | .ok m => .ok ⟨round2 p, round2 n, round2 m⟩

/-- The POST branch of upload_file after a file passed allowed_file
(lines 117-161): ingest, loop, aggregate. An error from process_file or a
ZeroDivisionError from the aggregation aborts the request. -/
def upload_file (oracle : String → SentimentResult) (df : DataFrame) :
    Except String (List ReviewResult × SentimentSummary) :=
  match process_file df with
  | .error e => .error e
  | .ok reviews =>
    let st := processReviews oracle reviews
    match sentimentSummary st.positive_count st.negative_count st.neutral_count
        reviews.length with
    | .error e => .error e
    | .ok s => .ok (st.results, s)

/-! ## Start-up configuration (app.py lines 14-16, 51-54) -/

/-- Line 14: API_KEY = os.environ.get of the key GROQ_API_KEY. The .get
accessor returns None when the variable is absent; nothing raises. -/
def API_KEY (env : String → Option String) : Option String := env "GROQ_API_KEY"

/-- How a Python f-string renders an optional string: None becomes the four
letters None. -/
def pyStr : Option String → String
  | some s => s
  | none => "None"

/-- Line 52: the Authorization header value built by the f-string. -/
def authHeader (env : String → Option String) : String :=
  "Bearer " ++ pyStr (API_KEY env)

/-- Module start-up (lines 10-19): it only binds configuration and cannot
fail; the bound key is returned. -/
def startup (env : String → Option String) : Except String (Option String) :=
  .ok (API_KEY env)

/-! ## Definitions taken from the words of the spec, for refinement -/

/-- Modelled from the spec: the part of the name after its last dot,
computed independently of allowed_file as the maximal dot-free suffix. -/
def specExt (filename : String) : Option (List Char) :=
  if '.' ∈ filename.toList then
    some (filename.toList.reverse.takeWhile (fun c => !(c == '.'))).reverse
  else none

/-! ## Helper lemmas -/

lemma getCol_eq_none_iff (df : DataFrame) (n : String) :
    df.getCol n = none ↔ n ∉ df.columns := by
  unfold DataFrame.getCol DataFrame.columns
  rw [Option.map_eq_none', List.find?_eq_none]
  simp only [List.mem_map, beq_iff_eq, Bool.not_eq_true]
  constructor
  · rintro h ⟨c, hc, hname⟩
    have := h c hc
    simp [hname] at this
  · intro h c hc
    by_contra hbeq
    exact h ⟨c, hc, by simpa using hbeq⟩

lemma takeWhile_append_left {p : Char → Bool} (xs ys : List Char)
    (h : ∀ x ∈ xs, p x = true) :
    (xs ++ ys).takeWhile p = xs ++ ys.takeWhile p := by
  induction xs with
  | nil => simp
  | cons a xs ih =>
    have ha : p a = true := h a (List.mem_cons_self a xs)
    simp [List.takeWhile_cons, ha, ih fun x hx => h x (List.mem_cons_of_mem a hx)]

lemma takeWhile_append_of_stop {p : Char → Bool} (xs ys : List Char)
    (h : ∃ x ∈ xs, p x = false) :
    (xs ++ ys).takeWhile p = xs.takeWhile p := by
  induction xs with
  | nil => simp at h
  | cons a xs ih =>
    by_cases ha : p a
    · rcases h with ⟨x, hx, hpx⟩
      rcases List.mem_cons.mp hx with rfl | hx
      · simp [hpx] at ha
      · simp [List.takeWhile_cons, ha, ih ⟨x, hx, hpx⟩]
    · simp [List.takeWhile_cons, Bool.of_not_eq_true ha]

/-- afterLastDot computes the maximal dot-free suffix, when a dot occurs. -/
lemma afterLastDot_eq (l : List Char) :
    afterLastDot l =
      if '.' ∈ l then some ((l.reverse.takeWhile (fun c => !(c == '.'))).reverse)
      else none := by
  induction l with
  | nil => rfl
  | cons c rest ih =>
    show (match afterLastDot rest with
      | some t => some t
      | none => if c = '.' then some rest else none) = _
    by_cases hd : '.' ∈ rest
    · rw [ih, if_pos hd]
      have hrev : ∃ x ∈ rest.reverse, (!(x == '.')) = false := by
        exact ⟨'.', List.mem_reverse.mpr hd, by simp⟩
      rw [if_pos (List.mem_cons_of_mem c hd)]
      simp only [List.reverse_cons]
      rw [takeWhile_append_of_stop _ _ hrev]
    · rw [ih, if_neg hd]
      by_cases hc : c = '.'
      · subst hc
        rw [if_pos rfl, if_pos (List.mem_cons_self '.' rest)]
        have hall : ∀ x ∈ rest.reverse, (!(x == '.')) = true := by
          intro x hx
          have : x ∈ rest := List.mem_reverse.mp hx
          have : x ≠ '.' := fun hxe => hd (hxe ▸ this)
          simpa using this
        simp only [List.reverse_cons]
        rw [takeWhile_append_left _ _ hall]
        simp
      · rw [if_neg hc, if_neg]
        intro hmem
        rcases List.mem_cons.mp hmem with h | h
        · exact hc h.symm
        · exact hd h

/-- One loop iteration, written out by the label of the review. -/
lemma loopStep_spec (oracle : String → SentimentResult) (st : LoopState) (review : String) :
    loopStep oracle st review =
      ⟨st.positive_count + (if labelOf (oracle review) = "positive" then 1 else 0),
       st.negative_count + (if labelOf (oracle review) = "negative" then 1 else 0),
       st.neutral_count +
         (if labelOf (oracle review) ≠ "positive" ∧ labelOf (oracle review) ≠ "negative"
          then 1 else 0),
       st.results ++ [⟨review, labelOf (oracle review)⟩]⟩ := by
  unfold loopStep
  by_cases hp : labelOf (oracle review) = "positive"
  · simp [hp]
  · by_cases hn : labelOf (oracle review) = "negative"
    · simp [hp, hn]
    · simp [hp, hn]

/-- The loop from any start state adds per-label counts and appends the rows. -/
lemma foldl_loopStep (oracle : String → SentimentResult) (reviews : List String)
    (st : LoopState) :
    reviews.foldl (loopStep oracle) st =
      ⟨st.positive_count + (reviews.map (fun r => labelOf (oracle r))).countP (· == "positive"),
       st.negative_count + (reviews.map (fun r => labelOf (oracle r))).countP (· == "negative"),
       st.neutral_count + (reviews.map (fun r => labelOf (oracle r))).countP
         (fun l => !(l == "positive") && !(l == "negative")),
       st.results ++ reviews.map (fun r => ⟨r, labelOf (oracle r)⟩)⟩ := by
  induction reviews generalizing st with
  | nil => simp
  | cons review rest ih =>
    rw [List.foldl_cons, loopStep_spec, ih]
    simp only [List.map_cons, List.countP_cons, List.append_assoc, List.cons_append,
      List.nil_append, beq_iff_eq, Bool.and_eq_true, Bool.not_eq_true', beq_eq_false_iff_ne,
      LoopState.mk.injEq]
    and_intros
    all_goals first
      | trivial
      | (split_ifs <;> simp_all <;> omega)

/-- The loop result from the zeroed state. -/
lemma processReviews_spec (oracle : String → SentimentResult) (reviews : List String) :
    processReviews oracle reviews =
      ⟨(reviews.map (fun r => labelOf (oracle r))).countP (· == "positive"),
       (reviews.map (fun r => labelOf (oracle r))).countP (· == "negative"),
       (reviews.map (fun r => labelOf (oracle r))).countP
         (fun l => !(l == "positive") && !(l == "negative")),
       reviews.map (fun r => ⟨r, labelOf (oracle r)⟩)⟩ := by
  simpa [processReviews] using foldl_loopStep oracle reviews ⟨0, 0, 0, []⟩

/-- The three count predicates partition any list of labels. -/
lemma countP_split_three (l : List String) :
    l.countP (· == "positive") + l.countP (· == "negative") +
      l.countP (fun s => !(s == "positive") && !(s == "negative")) = l.length := by
  induction l with
  | nil => rfl
  | cons a l ih =>
    simp only [List.countP_cons, List.length_cons, beq_iff_eq, Bool.and_eq_true,
      Bool.not_eq_true', beq_eq_false_iff_ne]
    split_ifs <;> simp_all <;> omega

/-- The counters after the loop sum to the number of reviews. -/
lemma counts_sum (oracle : String → SentimentResult) (reviews : List String) :
    (processReviews oracle reviews).positive_count +
      (processReviews oracle reviews).negative_count +
      (processReviews oracle reviews).neutral_count = reviews.length := by
  rw [processReviews_spec]
  simpa using countP_split_three (reviews.map (fun r => labelOf (oracle r)))

/-- labelOf takes one of exactly four values. -/
lemma labelOf_cases (r : SentimentResult) :
    labelOf r = "positive" ∨ labelOf r = "negative" ∨ labelOf r = "neutral" ∨
      labelOf r = "unknown" := by
  cases r with
  | error e => exact Or.inr (Or.inr (Or.inr rfl))
  | sentiment s =>
    by_cases hp : pyIn "positive" (pyLower s) = true
    · simp [labelOf, classify_sentiment, hp]
    · by_cases hn : pyIn "negative" (pyLower s) = true
      · simp [labelOf, classify_sentiment, hp, hn]
      · simp [labelOf, classify_sentiment, hp, hn]

/-- Over labels produced by the pipeline, the residual bucket counts exactly
the neutral and the unknown labels. -/
lemma countP_residual (oracle : String → SentimentResult) (reviews : List String) :
    (reviews.map (fun r => labelOf (oracle r))).countP
        (fun l => !(l == "positive") && !(l == "negative")) =
      (reviews.map (fun r => labelOf (oracle r))).countP (· == "neutral") +
        (reviews.map (fun r => labelOf (oracle r))).countP (· == "unknown") := by
  induction reviews with
  | nil => rfl
  | cons a rest ih =>
    simp only [List.map_cons, List.countP_cons]
    rcases labelOf_cases (oracle a) with h | h | h | h <;> simp [h, ih] <;> omega

/-- With a non-zero total, the aggregation succeeds and divides each counter
by the total. -/
lemma sentimentSummary_ok (p n m t : Nat) (h : t ≠ 0) :
    sentimentSummary p n m t =
      .ok ⟨round2 ((p : ℚ) / t), round2 ((n : ℚ) / t), round2 ((m : ℚ) / t)⟩ := by
  have ht : ((t : ℚ)) ≠ 0 := Nat.cast_ne_zero.mpr h
  simp [sentimentSummary, pyDiv, ht]

/-- A list whose members are all none filters to the empty list. -/
lemma filterMap_id_eq_nil {α : Type} (cells : List (Option α))
    (h : ∀ c ∈ cells, c = none) : cells.filterMap id = [] := by
  induction cells with
  | nil => rfl
  | cons a rest ih =>
    have ha := h a (List.mem_cons_self a rest)
    subst ha
    simpa using ih fun c hc => h c (List.mem_cons_of_mem _ hc)

/-- Rounding to 2 decimals moves a rational by at most 1/200. -/
lemma abs_round2_sub_le (x : ℚ) : |round2 x - x| ≤ 1 / 200 := by
  unfold round2
  have h : |x * 100 - (round (x * 100) : ℚ)| ≤ 1 / 2 := abs_sub_round (x * 100)
  rw [abs_sub_comm] at h
  have : ((round (x * 100) : ℤ) : ℚ) / 100 - x = (((round (x * 100) : ℤ) : ℚ) - x * 100) / 100 := by
    ring
  rw [this, abs_div, abs_of_pos (by norm_num : (0:ℚ) < 100)]
  linarith

/-! ## Concrete frames, oracles and networks used by the witnesses below -/

/-- A frame whose Review column exists but every cell is missing. -/
def dfEmptyReviews : DataFrame := ⟨[⟨"Review", [none, none]⟩]⟩

/-- A frame whose Review column has no rows at all. -/
def dfNoRows : DataFrame := ⟨[⟨"Review", []⟩]⟩

/-- A frame without a Review column. -/
def dfNoReviewCol : DataFrame := ⟨[⟨"Comments", [some "great"]⟩]⟩

/-- A frame mixing present and missing Review cells. -/
def dfMixed : DataFrame :=
  ⟨[⟨"Review", [some "Great product!", none, some "Terrible experience", none]⟩]⟩

/-- An oracle whose every call fails. -/
def failOracle : String → SentimentResult := fun _ => .error "service unavailable"

/-- A network that rate-limits every attempt. -/
def rateLimitedNet : Nat → AttemptOutcome := fun _ => .httpError 429 "too many requests"

/-! ## The claims -/

/-- Claim C1, counterexample: on the empty review sequence the aggregation
is NOT guarded; the division by the zero total raises, so the upload ends in
a ZeroDivisionError instead of an all-zero summary. -/
theorem c1_counterexample :
    upload_file failOracle dfEmptyReviews =
      .error "ZeroDivisionError: division by zero" := by
  rfl

/-- Claim C1 (amended): whenever ingestion yields the empty review sequence,
the aggregation step divides by zero and the upload aborts with a
ZeroDivisionError; no guard produces an all-zero summary. -/
theorem c1_empty_input_division_unguarded (oracle : String → SentimentResult)
    (df : DataFrame) (h : process_file df = .ok []) :
    upload_file oracle df = .error "ZeroDivisionError: division by zero" := by
  simp [upload_file, h, processReviews, sentimentSummary, pyDiv]

/-- Witness for the amended C1 at a concrete zero-row frame. -/
theorem c1_witness :
    upload_file failOracle dfNoRows = .error "ZeroDivisionError: division by zero" :=
  c1_empty_input_division_unguarded failOracle dfNoRows rfl

/-- Claim C2: the classifier client makes up to retry_attempts = 3 attempts;
it retries exactly on status 429, sleeping 2 ^ attempt seconds each time
(so 1s, 2s, 4s); any other HTTP error status returns the HTTP-error failure
at once, a transport failure returns the request-failed failure at once,
and three 429s exhaust the attempts with the fixed rate-limit message. -/
theorem c2_retry_policy (net : Nat → AttemptOutcome) :
    ((∀ i, i < retry_attempts → ∃ d, net i = .httpError 429 d) →
      analyze_sentiment net =
        (.error "Failed after multiple retries due to rate limiting.", [1, 2, 4])) ∧
    (∀ k, k < retry_attempts →
      (∀ i, i < k → ∃ d, net i = .httpError 429 d) →
      (∀ s d, net k = .httpError s d → s ≠ 429 →
        analyze_sentiment net =
          (.error ("HTTP error: " ++ d), (List.range k).map (2 ^ ·))) ∧
      (∀ d, net k = .transportError d →
        analyze_sentiment net =
          (.error ("Request failed: " ++ d), (List.range k).map (2 ^ ·)))) := by
  constructor
  · intro h
    obtain ⟨d0, h0⟩ := h 0 (by norm_num [retry_attempts])
    obtain ⟨d1, h1⟩ := h 1 (by norm_num [retry_attempts])
    obtain ⟨d2, h2⟩ := h 2 (by norm_num [retry_attempts])
    simp [analyze_sentiment, retry_attempts, analyze_go, h0, h1, h2]
  · intro k hk hprev
    simp only [retry_attempts] at hk
    interval_cases k
    · constructor
      · intro s d hnet hs
        simp [analyze_sentiment, retry_attempts, analyze_go, hnet, hs]
      · intro d hnet
        simp [analyze_sentiment, retry_attempts, analyze_go, hnet]
    · obtain ⟨d0, h0⟩ := hprev 0 (by norm_num)
      constructor
      · intro s d hnet hs
        simp [analyze_sentiment, retry_attempts, analyze_go, h0, hnet, hs, List.range_succ]
      · intro d hnet
        simp [analyze_sentiment, retry_attempts, analyze_go, h0, hnet, List.range_succ]
    · obtain ⟨d0, h0⟩ := hprev 0 (by norm_num)
      obtain ⟨d1, h1⟩ := hprev 1 (by norm_num)
      constructor
      · intro s d hnet hs
        simp [analyze_sentiment, retry_attempts, analyze_go, h0, h1, hnet, hs, List.range_succ]
      · intro d hnet
        simp [analyze_sentiment, retry_attempts, analyze_go, h0, h1, hnet, List.range_succ]

/-- Witness for C2 on the network that always answers 429. -/
theorem c2_witness :
    analyze_sentiment rateLimitedNet =
      (.error "Failed after multiple retries due to rate limiting.", [1, 2, 4]) :=
  (c2_retry_policy rateLimitedNet).1 (fun _ _ => ⟨"too many requests", rfl⟩)

/-- Claim C3: a failed outcome is always labelled unknown; a successful
outcome is labelled positive exactly when the lower-cased text holds the
substring positive, otherwise negative exactly when it holds the substring
negative, otherwise neutral. -/
theorem c3_label_normalization (e t : String) :
    labelOf (.error e) = "unknown" ∧
    (labelOf (.sentiment t) = "positive" ↔ pyIn "positive" (pyLower t) = true) ∧
    (pyIn "positive" (pyLower t) = false →
      (labelOf (.sentiment t) = "negative" ↔ pyIn "negative" (pyLower t) = true)) ∧
    (pyIn "positive" (pyLower t) = false → pyIn "negative" (pyLower t) = false →
      labelOf (.sentiment t) = "neutral") := by
  refine ⟨rfl, ?_, ?_, ?_⟩
  · by_cases hp : pyIn "positive" (pyLower t) = true
    · simp [labelOf, classify_sentiment, hp]
    · by_cases hn : pyIn "negative" (pyLower t) = true
      · simp [labelOf, classify_sentiment, hp, hn]
      · simp [labelOf, classify_sentiment, hp, hn]
  · intro hp
    by_cases hn : pyIn "negative" (pyLower t) = true
    · simp [labelOf, classify_sentiment, hp, hn]
    · simp [labelOf, classify_sentiment, hp, hn]
  · intro hp hn
    simp [labelOf, classify_sentiment, hp, hn]

/-- Witness for C3 at concrete outcomes. -/
theorem c3_witness :
    labelOf (.error "boom") = "unknown" ∧
    labelOf (.sentiment "Mostly NEGATIVE overall") = "negative" := by
  refine ⟨(c3_label_normalization "boom" "x").1, ?_⟩
  exact ((c3_label_normalization "boom" "Mostly NEGATIVE overall").2.2.1
    (by decide)).mpr (by decide)

/-- Claim C4, counterexample: the name reviews.CSV is accepted (its
extension is csv up to case) and it does end in .csv case-insensitively,
yet process_file dispatches it to read_excel, not to the CSV parser. -/
theorem c4_counterexample :
    allowed_file "reviews.CSV" = true ∧
    pyEndsWith (pyLower "reviews.CSV") ".csv" = true ∧
    parseFormat "reviews.CSV" ≠ FileFormat.csv ∧
    parseFormat "reviews.CSV" = FileFormat.xlsx := by
  refine ⟨by decide, by decide, by decide, by decide⟩

/-- Claim C4 (amended): a name is accepted exactly when the part after its
last dot is csv or xlsx up to case, and an accepted name is parsed as CSV
exactly when it ends in .csv case-SENSITIVELY; every other file, including
an upper-case .CSV one, is handed to the Excel parser. -/
theorem c4_extension_check_and_dispatch (filename : String) :
    (allowed_file filename = true ↔
      ∃ ext, specExt filename = some ext ∧
        (ext.map Char.toLower = "csv".toList ∨ ext.map Char.toLower = "xlsx".toList)) ∧
    (parseFormat filename = FileFormat.csv ↔ pyEndsWith filename ".csv" = true) := by
  constructor
  · unfold allowed_file specExt
    rw [afterLastDot_eq]
    by_cases h : '.' ∈ filename.toList
    · rw [if_pos h]
      simp [ALLOWED_EXTENSIONS]
    · rw [if_neg h]
      simp
  · unfold parseFormat
    by_cases h : pyEndsWith filename ".csv" = true
    · simp [h]
    · simp [h]

/-- Claim C7: for every frame without a Review column and EVERY oracle, the
upload aborts with exactly the missing-column message; since the result does
not depend on the oracle, no classification call is made. -/
theorem c7_missing_column_aborts (oracle : String → SentimentResult) (df : DataFrame)
    (h : "Review" ∉ df.columns) :
    upload_file oracle df = .error "Missing 'Review' column in file." := by
  have hnone : df.getCol "Review" = none := (getCol_eq_none_iff df "Review").mpr h
  simp [upload_file, process_file, hnone]

/-- Witness for C7 at a concrete frame lacking the column. -/
theorem c7_witness :
    upload_file failOracle dfNoReviewCol = .error "Missing 'Review' column in file." :=
  c7_missing_column_aborts failOracle dfNoReviewCol (by decide)

/-- Claim C8: when the Review column exists, ingestion returns exactly its
present values in row order, and an all-missing column yields the empty
sequence rather than an error. -/
theorem c8_ingest_nonempty_values (df : DataFrame) (cells : List (Option String))
    (h : df.getCol "Review" = some cells) :
    process_file df = .ok (cells.filterMap id) ∧
    ((∀ c ∈ cells, c = none) → process_file df = .ok []) := by
  constructor
  · simp [process_file, h]
  · intro hall
    simp [process_file, h, filterMap_id_eq_nil cells hall]

/-- Witness for C8 at concrete frames. -/
theorem c8_witness :
    process_file dfMixed = .ok ["Great product!", "Terrible experience"] ∧
    process_file dfEmptyReviews = .ok [] :=
  ⟨(c8_ingest_nonempty_values dfMixed _ rfl).1,
   (c8_ingest_nonempty_values dfEmptyReviews _ rfl).2 (by decide)⟩

/-- Claim C9, counterexample: with the credential absent from the
environment, start-up succeeds (it binds None, nothing fails fatally) and
the request header is built as the literal Bearer None. -/
theorem c9_counterexample :
    startup (fun _ => none) = .ok none ∧
    (¬ ∃ msg, startup (fun _ => none) = Except.error msg) ∧
    authHeader (fun _ => none) = "Bearer None" := by
  refine ⟨rfl, ?_, rfl⟩
  rintro ⟨msg, hmsg⟩
  simp [startup] at hmsg

/-- Claim C9 (amended): an absent credential is silently bound as None at
start-up; the program does not abort, and every classify request carries
the literal header value Bearer None. -/
theorem c9_absent_credential_no_abort (env : String → Option String)
    (h : env "GROQ_API_KEY" = none) :
    startup env = .ok none ∧ authHeader env = "Bearer None" := by
  simp [startup, authHeader, API_KEY, pyStr, h]

/-- Witness for the amended C9 at a concrete environment. -/
theorem c9_witness :
    startup (fun k => if k = "MODEL_ID" then some "llama3-8b-8192" else none) = .ok none ∧
    authHeader (fun k => if k = "MODEL_ID" then some "llama3-8b-8192" else none) =
      "Bearer None" :=
  c9_absent_credential_no_abort _ (by decide)

/-- An oracle used by the C5 and C6 witnesses: three classifiable replies
and one failing call. -/
def demoOracle : String → SentimentResult
  | "Great product!" => .sentiment "The sentiment of this review is Positive."
  | "Terrible experience" => .sentiment "Clearly negative."
  | "It was okay" => .sentiment "This one reads as neutral."
  | _ => .error "service down"

/-- The reviews fed to demoOracle. -/
def demoReviews : List String :=
  ["Great product!", "Terrible experience", "It was okay", "???"]

/-- Claim C5: after the loop, the positive and negative counters count
exactly their own labels, the neutral counter counts the neutral AND the
unknown labels together, and for a non-empty input the summary is the three
counters divided by the total and rounded to 2 decimals - a record with
exactly the fields positive, negative and neutral. -/
theorem c5_summary_buckets (oracle : String → SentimentResult) (reviews : List String)
    (h : reviews ≠ []) :
    (processReviews oracle reviews).positive_count =
      (reviews.map (fun r => labelOf (oracle r))).countP (· == "positive") ∧
    (processReviews oracle reviews).negative_count =
      (reviews.map (fun r => labelOf (oracle r))).countP (· == "negative") ∧
    (processReviews oracle reviews).neutral_count =
      (reviews.map (fun r => labelOf (oracle r))).countP (· == "neutral") +
        (reviews.map (fun r => labelOf (oracle r))).countP (· == "unknown") ∧
    sentimentSummary (processReviews oracle reviews).positive_count
        (processReviews oracle reviews).negative_count
        (processReviews oracle reviews).neutral_count reviews.length =
      .ok ⟨round2 (((processReviews oracle reviews).positive_count : ℚ) / reviews.length),
           round2 (((processReviews oracle reviews).negative_count : ℚ) / reviews.length),
           round2 (((processReviews oracle reviews).neutral_count : ℚ) / reviews.length)⟩ := by
  have hlen : reviews.length ≠ 0 := by
    simpa using List.length_pos.mpr h |>.ne'
  refine ⟨?_, ?_, ?_, sentimentSummary_ok _ _ _ _ hlen⟩
  · rw [processReviews_spec]
  · rw [processReviews_spec]
  · rw [processReviews_spec]
    exact countP_residual oracle reviews

/-- Witness for C5: the summary equation instantiated at the demo data. -/
theorem c5_witness :
    sentimentSummary (processReviews demoOracle demoReviews).positive_count
        (processReviews demoOracle demoReviews).negative_count
        (processReviews demoOracle demoReviews).neutral_count demoReviews.length =
      .ok ⟨round2 (((processReviews demoOracle demoReviews).positive_count : ℚ) /
             demoReviews.length),
           round2 (((processReviews demoOracle demoReviews).negative_count : ℚ) /
             demoReviews.length),
           round2 (((processReviews demoOracle demoReviews).neutral_count : ℚ) /
             demoReviews.length)⟩ :=
  (c5_summary_buckets demoOracle demoReviews (by decide)).2.2.2

/-- Claim C6: on any non-empty input the three rounded proportions sum to
1 up to 3/100. -/
theorem c6_proportions_sum (oracle : String → SentimentResult) (reviews : List String)
    (h : reviews ≠ []) :
    ∃ s : SentimentSummary,
      sentimentSummary (processReviews oracle reviews).positive_count
          (processReviews oracle reviews).negative_count
          (processReviews oracle reviews).neutral_count reviews.length = .ok s ∧
      |s.positive + s.negative + s.neutral - 1| ≤ 3 / 100 := by
  have hlen : reviews.length ≠ 0 := by
    simpa using List.length_pos.mpr h |>.ne'
  refine ⟨_, sentimentSummary_ok _ _ _ _ hlen, ?_⟩
  have hN : ((reviews.length : ℚ)) ≠ 0 := Nat.cast_ne_zero.mpr hlen
  set p := (processReviews oracle reviews).positive_count with hp
  set n := (processReviews oracle reviews).negative_count with hn
  set m := (processReviews oracle reviews).neutral_count with hm
  have hsum : p + n + m = reviews.length := counts_sum oracle reviews
  have hexact : (p : ℚ) / reviews.length + (n : ℚ) / reviews.length +
      (m : ℚ) / reviews.length = 1 := by
    field_simp
    exact_mod_cast hsum
  set A := (p : ℚ) / reviews.length with hA
  set B := (n : ℚ) / reviews.length with hB
  set C := (m : ℚ) / reviews.length with hC
  have h1 := abs_round2_sub_le A
  have h2 := abs_round2_sub_le B
  have h3 := abs_round2_sub_le C
  have hkey : round2 A + round2 B + round2 C - 1 =
      (round2 A - A) + ((round2 B - B) + (round2 C - C)) := by
    rw [← hexact]; ring
  show |round2 A + round2 B + round2 C - 1| ≤ 3 / 100
  rw [hkey]
  have t1 := abs_add (round2 A - A) ((round2 B - B) + (round2 C - C))
  have t2 := abs_add (round2 B - B) (round2 C - C)
  linarith

/-- Witness for C6 at the demo data. -/
theorem c6_witness :
    ∃ s : SentimentSummary,
      sentimentSummary (processReviews demoOracle demoReviews).positive_count
          (processReviews demoOracle demoReviews).negative_count
          (processReviews demoOracle demoReviews).neutral_count demoReviews.length = .ok s ∧
      |s.positive + s.negative + s.neutral - 1| ≤ 3 / 100 :=
  c6_proportions_sum demoOracle demoReviews (by decide)

/-- Claim C10: the three counters partition the ingested reviews and the
results list carries exactly one row per review, in input order. -/
theorem c10_counts_partition (oracle : String → SentimentResult) (reviews : List String) :
    (processReviews oracle reviews).positive_count +
        (processReviews oracle reviews).negative_count +
        (processReviews oracle reviews).neutral_count = reviews.length ∧
    (processReviews oracle reviews).results.map ReviewResult.review = reviews ∧
    (processReviews oracle reviews).results.length = reviews.length := by
  refine ⟨counts_sum oracle reviews, ?_, ?_⟩
  · rw [processReviews_spec]
    simp [List.map_map, Function.comp_def]
  · rw [processReviews_spec]
    simp

end App
